import Mathlib

/-!
Verification development for the BI-Chart-MCP-Server data-transformation
engine (`mcp_bi_visualizer/data/processor.py` and
`mcp_bi_visualizer/resources/manager.py`), shallowly embedded in Lean 4.

A pandas `DataFrame` is modelled as an ordered list of column names plus a
list of rows, each row a list of tagged cells.  Missing values (`NaN` /
`None`) are the `Cell.null` tag.  Numbers are modelled as rationals (the
claims under study only involve integral values, so float rounding plays
no role).  Python exceptions that a function lets escape are modelled with
`Except String`; exceptions that the source catches internally are
modelled by the corresponding fallback behaviour of the catching code.
-/

/-- An executable rational number kept in lowest terms (denominator
positive), standing in for Python's numerics.  Mathlib's `Rat` is not
used because its arithmetic does not reduce definitionally, which would
block `decide`-style evaluation of concrete tables. -/
structure PyRat where
  n : Int
  d : Nat
deriving Repr, DecidableEq

instance (k : Nat) : OfNat PyRat k := ⟨⟨(k : Int), 1⟩⟩

/-- Build a `PyRat` in lowest terms from a numerator and a positive
denominator. -/
def mkPyRat (n : Int) (d : Nat) : PyRat :=
  if d = 0 then ⟨0, 1⟩
  else
    let g := Nat.gcd n.natAbs d
    ⟨n / (g : Int), d / g⟩

/-- Rational addition. -/
def prAdd (a b : PyRat) : PyRat := mkPyRat (a.n * (b.d : Int) + b.n * (a.d : Int)) (a.d * b.d)

/-- Value equality of rationals by cross-multiplication (robust even for
non-normalized inputs). -/
def prEq (a b : PyRat) : Bool := a.n * (b.d : Int) == b.n * (a.d : Int)

/-- Strict order on rationals by cross-multiplication. -/
def prLt (a b : PyRat) : Bool := decide (a.n * (b.d : Int) < b.n * (a.d : Int))

/-- Division of a rational by a positive natural (used for means). -/
def prDivNat (a : PyRat) (k : Nat) : PyRat := mkPyRat a.n (a.d * k)

/-- A tagged cell value, mirroring the values a pandas column can hold in
this code base: missing (`NaN`/`None`), numeric, string, boolean. -/
inductive Cell where
  | null
  | num (q : PyRat)
  | text (s : String)
  | boolean (b : Bool)
deriving Repr, DecidableEq

/-- A pandas `DataFrame`: ordered column names and rows of cells.  Every
row is read positionally against `cols`. -/
structure DataFrame where
  cols : List String
  rows : List (List Cell)
deriving Repr, DecidableEq

/-- A Python value appearing in a filter condition's `value` field:
either a scalar or a list (the source distinguishes them with
`isinstance(value, list)`). -/
inductive PyVal where
  | scalar (c : Cell)
  | list (cs : List Cell)
deriving Repr, DecidableEq

/-- One element of the `filters` argument of `DataProcessor.filter_data`:
a dict read with `.get`, so `column` and `operator` may be absent. -/
structure FilterCondition where
  column : Option String
  operator : Option String
  value : PyVal
deriving Repr, DecidableEq

deriving instance DecidableEq for Except

/-- Cell read with positional default: out-of-range reads yield `null`
(never happens on well-formed tables but keeps the model total). -/
def cellAt (r : List Cell) (i : Nat) : Cell := r.getD i Cell.null

/-- Numeric view of a cell; Python booleans compare as integers 0/1. -/
def numLike : Cell → Option PyRat
  | Cell.num q => some q
  | Cell.boolean b => some (if b then 1 else 0)
  | _ => none

/-- Lexicographic code-point order on character lists (Python string
comparison). -/
def charsLt : List Char → List Char → Bool
  | [], _ :: _ => true
  | _, [] => false
  | a :: as', b :: bs' => decide (a.toNat < b.toNat) || (a == b && charsLt as' bs')

/-- Python `<` on strings. -/
def strLt (s t : String) : Bool := charsLt s.data t.data

/-- Elementwise pandas `==` semantics: `NaN` equals nothing (including
`NaN`), values of incompatible kinds are unequal rather than erroring. -/
def cellEq : Cell → Cell → Bool
  | Cell.text a, Cell.text b => decide (a = b)
  | a, b =>
    match numLike a, numLike b with
    | some x, some y => prEq x y
    | _, _ => false

/-- Three-valued ordering comparison used by `>`, `<`, `>=`, `<=` and
`between`.  `none` models a raised `TypeError` (e.g. number vs string);
`some none` models a comparison involving `NaN`, for which every ordering
comparison is `False` in pandas; `some (some o)` is a real ordering. -/
def cellCmp (a b : Cell) : Option (Option Ordering) :=
  match a, b with
  | Cell.text s, Cell.text t =>
    some (some (if strLt s t then Ordering.lt else if strLt t s then Ordering.gt else Ordering.eq))
  | Cell.null, Cell.null => some none
  | Cell.null, Cell.num _ => some none
  | Cell.null, Cell.boolean _ => some none
  | Cell.num _, Cell.null => some none
  | Cell.boolean _, Cell.null => some none
  | a, b =>
    match numLike a, numLike b with
    | some x, some y =>
      some (some (if prLt x y then Ordering.lt else if prLt y x then Ordering.gt else Ordering.eq))
    | _, _ => none

/-- `a > b` as a pandas mask entry (`none` = raises). -/
def cellGt (a b : Cell) : Option Bool :=
  (cellCmp a b).map fun o => match o with
    | some Ordering.gt => true
    | _ => false

/-- `a < b` as a pandas mask entry. -/
def cellLt (a b : Cell) : Option Bool :=
  (cellCmp a b).map fun o => match o with
    | some Ordering.lt => true
    | _ => false

/-- `a >= b` as a pandas mask entry. -/
def cellGe (a b : Cell) : Option Bool :=
  (cellCmp a b).map fun o => match o with
    | some Ordering.gt => true
    | some Ordering.eq => true
    | _ => false

/-- `a <= b` as a pandas mask entry. -/
def cellLe (a b : Cell) : Option Bool :=
  (cellCmp a b).map fun o => match o with
    | some Ordering.lt => true
    | some Ordering.eq => true
    | _ => false

/-- ASCII lower-casing of one character (all the operator names in the
source are ASCII). -/
def lowerChar (c : Char) : Char :=
  if 65 ≤ c.toNat ∧ c.toNat ≤ 90 then Char.ofNat (c.toNat + 32) else c

/-- Python `str.lower()` (structural model of `String.toLower`). -/
def pyLower (s : String) : String := String.mk (s.data.map lowerChar)

/-- Join strings with a separator (structural model of
`String.intercalate`). -/
def joinWith (sep : String) : List String → String
  | [] => ""
  | [s] => s
  | s :: rest => s ++ sep ++ joinWith sep rest

/-- Python `str()` of a cell, as produced by `Series.astype(str)`:
crucially, a missing value becomes the literal string `"nan"` (for an
object column holding `None` it would be `"None"`; either way it is a
non-empty text that ordinary patterns can match). -/
def strOfCell : Cell → String
  | Cell.null => "nan"
  | Cell.num q => if q.d = 1 then toString q.n else toString q.n ++ "/" ++ toString q.d
  | Cell.text s => s
  | Cell.boolean b => if b then "True" else "False"

/-- Python `str()` of a filter value. -/
def strOfVal : PyVal → String
  | PyVal.scalar c => strOfCell c
  | PyVal.list cs => "[" ++ joinWith ", " (cs.map strOfCell) ++ "]"

/-- Substring test on character lists (model of `str.contains` with a
pattern that has no regex metacharacters, as in the claims at hand). -/
def charsHaveSub (needle : List Char) : List Char → Bool
  | [] => needle.isEmpty
  | c :: rest => needle.isPrefixOf (c :: rest) || charsHaveSub needle rest

/-- Substring containment on strings. -/
def strHasSub (s pat : String) : Bool := charsHaveSub pat.data s.data

/-- String starts-with test. -/
def strStarts (s pat : String) : Bool := pat.data.isPrefixOf s.data

/-- String ends-with test. -/
def strEnds (s pat : String) : Bool := pat.data.reverse.isPrefixOf s.data.reverse

/-- `df[col] == value` filtering (processor.py line 51).  Comparing a
Series against a Python list raises unless lengths coincide; the raised
error is caught by the per-condition handler, so the list case leaves the
rows unchanged. -/
def eqFilter (i : Nat) (v : PyVal) (rows : List (List Cell)) : List (List Cell) :=
  match v with
  | PyVal.scalar c => rows.filter fun r => cellEq (cellAt r i) c
  | PyVal.list _ => rows

/-- `df[col] != value` filtering (line 53): elementwise negation of `==`,
so `NaN != v` is `True`. -/
def neFilter (i : Nat) (v : PyVal) (rows : List (List Cell)) : List (List Cell) :=
  match v with
  | PyVal.scalar c => rows.filter fun r => !cellEq (cellAt r i) c
  | PyVal.list _ => rows

/-- Ordering-comparison filtering (lines 55-61).  The whole mask is
computed first; if any row raises a `TypeError` the exception is caught
by the per-condition handler and the rows are left unchanged. -/
def cmpFilter (test : Cell → Cell → Option Bool) (i : Nat) (v : PyVal)
    (rows : List (List Cell)) : List (List Cell) :=
  match v with
  | PyVal.scalar c =>
    if rows.all fun r => (test (cellAt r i) c).isSome then
      rows.filter fun r => (test (cellAt r i) c).getD false
    else rows
  | PyVal.list _ => rows

/-- Text-matching filtering (lines 63-69): the column is passed through
`astype(str)` and then matched; `na=False` is inert because `astype(str)`
already stringified every missing value. -/
def textFilter (m : String → String → Bool) (neg : Bool) (i : Nat) (v : PyVal)
    (rows : List (List Cell)) : List (List Cell) :=
  rows.filter fun r =>
    let hit := m (strOfCell (cellAt r i)) (strOfVal v)
    if neg then !hit else hit

/-- Scalar-to-singleton normalization done by the `in`/`notIn` branches
(lines 71-72, 75-76). -/
def asCellList : PyVal → List Cell
  | PyVal.scalar c => [c]
  | PyVal.list cs => cs

/-- `Series.isin` equality: unlike `==`, `isin` does match missing values
against missing values. -/
def isinEq (a b : Cell) : Bool := a == b || cellEq a b

/-- `in` filtering (line 73). -/
def inFilter (i : Nat) (v : PyVal) (rows : List (List Cell)) : List (List Cell) :=
  rows.filter fun r => (asCellList v).any fun c => isinEq (cellAt r i) c

/-- `notIn` filtering (line 77). -/
def notinFilter (i : Nat) (v : PyVal) (rows : List (List Cell)) : List (List Cell) :=
  rows.filter fun r => !((asCellList v).any fun c => isinEq (cellAt r i) c)

/-- `between` filtering (lines 78-81).  A value that is not a 2-element
list makes the source `raise ValueError(...)`; that exception is caught
by the per-condition handler at line 89, which only logs, so the rows
pass through unchanged.  With a well-formed `[lo, hi]` the source
computes `(col >= lo) & (col <= hi)`; any `TypeError` while building the
masks is likewise caught and leaves the rows unchanged. -/
def betweenFilter (i : Nat) (v : PyVal) (rows : List (List Cell)) : List (List Cell) :=
  match v with
  | PyVal.list [lo, hi] =>
    if rows.all fun r => (cellGe (cellAt r i) lo).isSome && (cellLe (cellAt r i) hi).isSome then
      rows.filter fun r => (cellGe (cellAt r i) lo).getD false && (cellLe (cellAt r i) hi).getD false
    else rows
  | _ => rows

/-- `isNull` filtering (line 83). -/
def isnullFilter (i : Nat) (rows : List (List Cell)) : List (List Cell) :=
  rows.filter fun r => cellAt r i == Cell.null

/-- `notNull` filtering (line 85). -/
def notnullFilter (i : Nat) (rows : List (List Cell)) : List (List Cell) :=
  rows.filter fun r => !(cellAt r i == Cell.null)

/-- The operator families of the `if`/`elif` dispatch of `filter_data`
(processor.py lines 50-87). -/
inductive OpKind where
  | opEq | opNe | opGt | opLt | opGe | opLe
  | opHas | opNotHas | opStarts | opEnds
  | opIn | opNotIn | opBetween | opIsNull | opNotNull
  | opOther
deriving Repr, DecidableEq

/-- Classification of an operator string, in exact source order: the six
case-sensitive comparison forms first, then the `operator.lower()`
family; anything else is unsupported (logged and skipped at line 87). -/
def classifyOp (op : String) : OpKind :=
  if op = "=" ∨ op = "==" then OpKind.opEq
  else if op = "!=" then OpKind.opNe
  else if op = ">" then OpKind.opGt
  else if op = "<" then OpKind.opLt
  else if op = ">=" then OpKind.opGe
  else if op = "<=" then OpKind.opLe
  else if pyLower op = "contains" then OpKind.opHas
  else if pyLower op = "notcontains" then OpKind.opNotHas
  else if pyLower op = "startswith" then OpKind.opStarts
  else if pyLower op = "endswith" then OpKind.opEnds
  else if pyLower op = "in" then OpKind.opIn
  else if pyLower op = "notin" then OpKind.opNotIn
  else if pyLower op = "between" then OpKind.opBetween
  else if pyLower op = "isnull" then OpKind.opIsNull
  else if pyLower op = "notnull" then OpKind.opNotNull
  else OpKind.opOther

/-- Operator dispatch of `filter_data` (processor.py lines 50-87). -/
def applyOp (i : Nat) (op : String) (v : PyVal) (rows : List (List Cell)) : List (List Cell) :=
  match classifyOp op with
  | OpKind.opEq => eqFilter i v rows
  | OpKind.opNe => neFilter i v rows
  | OpKind.opGt => cmpFilter cellGt i v rows
  | OpKind.opLt => cmpFilter cellLt i v rows
  | OpKind.opGe => cmpFilter cellGe i v rows
  | OpKind.opLe => cmpFilter cellLe i v rows
  | OpKind.opHas => textFilter strHasSub false i v rows
  | OpKind.opNotHas => textFilter strHasSub true i v rows
  | OpKind.opStarts => textFilter strStarts false i v rows
  | OpKind.opEnds => textFilter strEnds false i v rows
  | OpKind.opIn => inFilter i v rows
  | OpKind.opNotIn => notinFilter i v rows
  | OpKind.opBetween => betweenFilter i v rows
  | OpKind.opIsNull => isnullFilter i rows
  | OpKind.opNotNull => notnullFilter i rows
  | OpKind.opOther => rows

/-- One iteration of the loop of `filter_data` (lines 40-90): a condition
whose column is absent from the original frame's columns is skipped with
a warning (lines 45-47); a missing `operator` key makes
`operator.lower()` raise `AttributeError`, caught at line 89, so the
condition is likewise skipped. -/
def applyCondition (cols : List String) (rows : List (List Cell))
    (fc : FilterCondition) : List (List Cell) :=
  match fc.column with
  | none => rows
  | some col =>
    match cols.findIdx? (fun c => c == col) with
    | none => rows
    | some i =>
      match fc.operator with
      | none => rows
      | some op => applyOp i op fc.value rows

/-- `DataProcessor.filter_data` (processor.py lines 20-94): an empty
filter list returns the frame immediately (lines 34-35); otherwise the
conditions are folded over the rows in order.  Every exception raised
while applying a condition is caught and logged inside the loop, so the
function itself never raises. -/
def filter_data (df : DataFrame) (filters : List FilterCondition) : DataFrame :=
  if filters = [] then df
  else { df with rows := filters.foldl (applyCondition df.cols) df.rows }

/-- Index of a column name in a frame (callers only use it after checking
membership, so the default 0 is never the value actually read). -/
def colIdx (df : DataFrame) (c : String) : Nat :=
  (df.cols.findIdx? (fun x => x == c)).getD 0

/-- The tuple of values a row takes on a list of columns (the group key
of `groupby`, and the join key of `merge`). -/
def keyOf (df : DataFrame) (keys : List String) (r : List Cell) : List Cell :=
  keys.map fun c => cellAt r (colIdx df c)

/-- First-seen-order deduplication, accumulator of already seen values. -/
def dedupFirstAux (seen : List (List Cell)) : List (List Cell) → List (List Cell)
  | [] => []
  | r :: rest =>
    if seen.any (fun x => x == r) then dedupFirstAux seen rest
    else r :: dedupFirstAux (r :: seen) rest

/-- Keep the first occurrence of each distinct row/key. -/
def dedupFirst (xs : List (List Cell)) : List (List Cell) := dedupFirstAux [] xs

/-- Total order on cells used to model the `sort=True` default of
`groupby` and the sorted axes of `pivot_table`.  pandas raises on
mixed-type keys; this model totalises by ordering tags first (no claim
exercises mixed-type keys). -/
def cellTag : Cell → Nat
  | Cell.null => 0
  | Cell.boolean _ => 1
  | Cell.num _ => 2
  | Cell.text _ => 3

/-- Strict total order on cells: tag first, then value. -/
def cellSortLt (a b : Cell) : Bool :=
  if cellTag a ≠ cellTag b then decide (cellTag a < cellTag b)
  else match a, b with
    | Cell.num x, Cell.num y => prLt x y
    | Cell.text s, Cell.text t => strLt s t
    | Cell.boolean x, Cell.boolean y => !x && y
    | _, _ => false

/-- Lexicographic order on key tuples. -/
def keyLt : List Cell → List Cell → Bool
  | [], _ :: _ => true
  | _, [] => false
  | a :: as', b :: bs' => cellSortLt a b || (a == b && keyLt as' bs')

/-- Insert a key into a sorted list of keys. -/
def insertKey (k : List Cell) : List (List Cell) → List (List Cell)
  | [] => [k]
  | h :: t => if keyLt k h then k :: h :: t else h :: insertKey k t

/-- Insertion sort of group keys (models pandas' ascending key sort). -/
def sortKeys : List (List Cell) → List (List Cell)
  | [] => []
  | k :: rest => insertKey k (sortKeys rest)

/-- Insert a rational into a sorted list (for medians). -/
def insertQ (q : PyRat) : List PyRat → List PyRat
  | [] => [q]
  | h :: t => if prLt q h then q :: h :: t else h :: insertQ q t

/-- Insertion sort of rationals. -/
def sortQ : List PyRat → List PyRat
  | [] => []
  | q :: rest => insertQ q (sortQ rest)

/-- The numeric values of a cell list, missing values skipped (the
`skipna` behaviour of pandas reductions). -/
def numsOf (cs : List Cell) : List PyRat := cs.filterMap numLike

/-- Group `sum`: adds the non-null numeric values, 0 for an all-null
group (pandas `sum` with default `min_count=0`). -/
def aggSum (cs : List Cell) : Cell := Cell.num ((numsOf cs).foldl prAdd 0)

/-- Group `mean`: arithmetic mean of the non-null values, null if none. -/
def aggMean (cs : List Cell) : Cell :=
  match numsOf cs with
  | [] => Cell.null
  | ns => Cell.num (prDivNat (ns.foldl prAdd 0) ns.length)

/-- Group `count`: number of non-null cells. -/
def aggCount (cs : List Cell) : Cell :=
  Cell.num ⟨((cs.filter fun c => !(c == Cell.null)).length : Int), 1⟩

/-- Group `min` over the non-null numeric values (null if none; the
claims only aggregate numeric columns). -/
def aggMin (cs : List Cell) : Cell :=
  match numsOf cs with
  | [] => Cell.null
  | h :: t => Cell.num (t.foldl (fun a b => if prLt b a then b else a) h)

/-- Group `max` over the non-null numeric values. -/
def aggMax (cs : List Cell) : Cell :=
  match numsOf cs with
  | [] => Cell.null
  | h :: t => Cell.num (t.foldl (fun a b => if prLt a b then b else a) h)

/-- Group `median` of the non-null numeric values. -/
def aggMedian (cs : List Cell) : Cell :=
  match sortQ (numsOf cs) with
  | [] => Cell.null
  | ns =>
    let m := ns.length
    if m % 2 = 1 then Cell.num (ns.getD (m / 2) 0)
    else Cell.num (prDivNat (prAdd (ns.getD (m / 2 - 1) 0) (ns.getD (m / 2) 0)) 2)

/-- Group `first`: first non-null cell in arrival order (`GroupBy.first`
skips missing values). -/
def aggFirst (cs : List Cell) : Cell :=
  (cs.find? fun c => !(c == Cell.null)).getD Cell.null

/-- Group `last`: last non-null cell in arrival order. -/
def aggLast (cs : List Cell) : Cell :=
  (cs.reverse.find? fun c => !(c == Cell.null)).getD Cell.null

/-- The aggregation-function names `DataFrame.agg` accepts in this code
base (the set the spec lists); any other name makes pandas raise, which
`aggregate_data` re-raises.  Names are case-sensitive here, matching
pandas. -/
def resolveGroupAgg (f : String) : Option (List Cell → Cell) :=
  if f = "sum" then some aggSum
  else if f = "mean" then some aggMean
  else if f = "count" then some aggCount
  else if f = "min" then some aggMin
  else if f = "max" then some aggMax
  else if f = "median" then some aggMedian
  else if f = "first" then some aggFirst
  else if f = "last" then some aggLast
  else none

/-- The grouped-and-aggregated table:
`df.groupby(group_by).agg(aggregations).reset_index()` (processor.py
line 132).  `groupby` defaults to `dropna=True`, so rows with a missing
value in any group-by column are dropped before grouping, and to
`sort=True`, so the distinct keys come out in ascending order.  With a
`dict[str, str]` aggregation argument the result columns keep the
original column names (no `MultiIndex` arises, so the flattening at
lines 135-136 never fires). -/
def groupAgg (df : DataFrame) (group_by : List String)
    (aggregations : List (String × String)) : DataFrame :=
  let keptRows := df.rows.filter fun r => (keyOf df group_by r).all fun c => !(c == Cell.null)
  let keys := sortKeys (dedupFirst (keptRows.map (keyOf df group_by)))
  let outRows := keys.map fun k =>
    let grp := keptRows.filter fun r => keyOf df group_by r == k
    k ++ aggregations.map fun p =>
      ((resolveGroupAgg p.2).getD aggSum) (grp.map fun r => cellAt r (colIdx df p.1))
  ⟨group_by ++ aggregations.map Prod.fst, outRows⟩

/-- `DataProcessor.aggregate_data` (processor.py lines 97-144) for a
list-valued `group_by`.  A falsy `group_by` or empty `aggregations` dict
returns the frame unchanged without any validation (lines 112-113);
otherwise each group-by column and then each aggregation column is
checked for existence, raising `ValueError` (re-raised at line 144) on
the first missing one; an aggregation-function name pandas does not know
also raises. -/
def aggregate_data (df : DataFrame) (group_by : List String)
    (aggregations : List (String × String)) : Except String DataFrame :=
  if group_by = [] ∨ aggregations = [] then Except.ok df
  else
    match group_by.find? (fun c => !(df.cols.contains c)) with
    | some c => Except.error ("Group by column '" ++ c ++ "' not found in DataFrame")
    | none =>
      match aggregations.find? (fun p => !(df.cols.contains p.1)) with
      | some p => Except.error ("Aggregation column '" ++ p.1 ++ "' not found in DataFrame")
      | none =>
        match aggregations.find? (fun p => (resolveGroupAgg p.2).isNone) with
        | some p => Except.error ("Aggregation error: unsupported function '" ++ p.2 ++ "'")
        | none => Except.ok (groupAgg df group_by aggregations)

/-- Indices of the right frame's columns kept by `pd.merge`: when the
left and right key lists are the same column names the merged key
columns appear once (values from the key), so the right frame's key
columns are dropped; with distinct names both sides' key columns are
kept. -/
def mergeKeptRight (rdf : DataFrame) (left_on right_on : List String) : List Nat :=
  if left_on = right_on then
    (List.range rdf.cols.length).filter fun j => !(right_on.contains (rdf.cols.getD j ""))
  else List.range rdf.cols.length

/-- The names of the kept right columns. -/
def mergeKptNames (rdf : DataFrame) (left_on right_on : List String) : List String :=
  (mergeKeptRight rdf left_on right_on).map fun j => rdf.cols.getD j ""

/-- Column names that overlap between the left frame and the kept part
of the right frame; `pd.merge` disambiguates them with the configured
suffix pair. -/
def mergeOverlap (ldf rdf : DataFrame) (left_on right_on : List String) : List String :=
  ldf.cols.filter fun c =>
    (mergeKptNames rdf left_on right_on).contains c

/-- Output column names of `pd.merge`: suffixed left columns followed by
suffixed kept right columns. -/
def mergeOutCols (ldf rdf : DataFrame) (left_on right_on : List String)
    (suffix : String × String) : List String :=
  let ov := mergeOverlap ldf rdf left_on right_on
  ldf.cols.map (fun c => if ov.contains c then c ++ suffix.1 else c)
    ++ (mergeKptNames rdf left_on right_on).map fun c =>
        if ov.contains c then c ++ suffix.2 else c

/-- Whether a left row and a right row match on the join keys.  This is
plain tuple equality of the key cells — in particular, like `pd.merge`,
missing values in the keys match each other. -/
def mergeMatch (ldf rdf : DataFrame) (left_on right_on : List String)
    (lr rr : List Cell) : Bool :=
  keyOf ldf left_on lr == keyOf rdf right_on rr

/-- A combined output row from a matched pair. -/
def mergeRow (rdf : DataFrame) (left_on right_on : List String)
    (lr rr : List Cell) : List Cell :=
  lr ++ (mergeKeptRight rdf left_on right_on).map fun j => cellAt rr j

/-- The left part of an output row for an unmatched right row: nulls,
except that with identical key names the merged key columns carry the
right row's key values. -/
def mergeLeftFill (ldf rdf : DataFrame) (left_on right_on : List String)
    (rr : List Cell) : List Cell :=
  ldf.cols.map fun c =>
    if left_on = right_on ∧ left_on.contains c then cellAt rr (colIdx rdf c)
    else Cell.null

/-- The right part of an output row for an unmatched left row: nulls in
every kept right column. -/
def mergeRightNulls (rdf : DataFrame) (left_on right_on : List String) : List Cell :=
  (mergeKeptRight rdf left_on right_on).map fun _ => Cell.null

/-- Rows of an inner merge: left-major order over the matching pairs. -/
def innerRows (ldf rdf : DataFrame) (left_on right_on : List String) : List (List Cell) :=
  ldf.rows.flatMap fun lr =>
    (rdf.rows.filter fun rr => mergeMatch ldf rdf left_on right_on lr rr).map
      (mergeRow rdf left_on right_on lr)

/-- Rows of a left merge: every left row, matched or null-filled. -/
def leftRows (ldf rdf : DataFrame) (left_on right_on : List String) : List (List Cell) :=
  ldf.rows.flatMap fun lr =>
    match rdf.rows.filter fun rr => mergeMatch ldf rdf left_on right_on lr rr with
    | [] => [lr ++ mergeRightNulls rdf left_on right_on]
    | ms => ms.map (mergeRow rdf left_on right_on lr)

/-- Rows of a right merge: every right row, matched or null-filled. -/
def rightRows (ldf rdf : DataFrame) (left_on right_on : List String) : List (List Cell) :=
  rdf.rows.flatMap fun rr =>
    match ldf.rows.filter fun lr => mergeMatch ldf rdf left_on right_on lr rr with
    | [] => [mergeLeftFill ldf rdf left_on right_on rr
              ++ (mergeKeptRight rdf left_on right_on).map fun j => cellAt rr j]
    | ms => ms.map fun lr => mergeRow rdf left_on right_on lr rr

/-- Rows of an outer merge: the left-merge rows followed by the
unmatched right rows. -/
def outerRows (ldf rdf : DataFrame) (left_on right_on : List String) : List (List Cell) :=
  leftRows ldf rdf left_on right_on
    ++ ((rdf.rows.filter fun rr =>
          ldf.rows.all fun lr => !(mergeMatch ldf rdf left_on right_on lr rr)).map fun rr =>
        mergeLeftFill ldf rdf left_on right_on rr
          ++ (mergeKeptRight rdf left_on right_on).map fun j => cellAt rr j)

/-- `DataProcessor.join_data` (processor.py lines 147-193): the join
type is validated first (lines 168-170, raising `ValueError` on an
unknown type); the `pd.merge` call then raises `KeyError`/`ValueError`
for missing key columns or key lists of different lengths (re-raised at
line 193); otherwise the merged frame is returned. -/
def join_data (ldf rdf : DataFrame) (left_on right_on : List String)
    (join_type : String) (suffix : String × String) : Except String DataFrame :=
  if !(["inner", "left", "right", "outer"].contains join_type) then
    Except.error "Invalid join type. Expected one of: ['inner', 'left', 'right', 'outer']"
  else if !(left_on.all fun c => ldf.cols.contains c) then
    Except.error "Join error: left key column not found"
  else if !(right_on.all fun c => rdf.cols.contains c) then
    Except.error "Join error: right key column not found"
  else if left_on.length ≠ right_on.length then
    Except.error "Join error: len(left_on) must equal len(right_on)"
  else
    let rows :=
      if join_type = "inner" then innerRows ldf rdf left_on right_on
      else if join_type = "left" then leftRows ldf rdf left_on right_on
      else if join_type = "right" then rightRows ldf rdf left_on right_on
      else outerRows ldf rdf left_on right_on
    Except.ok ⟨mergeOutCols ldf rdf left_on right_on suffix, rows⟩

/-- `len` as a pivot aggregation (the `count` branch at line 224 uses
Python `len`, which counts missing values too, unlike `GroupBy.count`). -/
def pivotLen (cs : List Cell) : Cell := Cell.num ⟨(cs.length : Int), 1⟩

/-- `lambda x: x.iloc[0]` (line 232): the first cell, missing or not. -/
def pivotHead (cs : List Cell) : Cell := cs.headD Cell.null

/-- `lambda x: x.iloc[-1]` (line 234): the last cell, missing or not. -/
def pivotTail (cs : List Cell) : Cell := cs.getLastD Cell.null

/-- The string-to-function dispatch of `pivot_data` (processor.py lines
218-236), in source order and after `aggfunc.lower()`: `sum`, `mean` or
`avg`, `count`, `min`, `max`, `median`, `first`, `last`; any other name
raises `ValueError("Unsupported aggregation function: ...")`, re-raised
at line 256. -/
def resolvePivotAgg (aggfunc : String) : Option (List Cell → Cell) :=
  if pyLower aggfunc = "sum" then some aggSum
  else if pyLower aggfunc = "mean" ∨ pyLower aggfunc = "avg" then some aggMean
  else if pyLower aggfunc = "count" then some pivotLen
  else if pyLower aggfunc = "min" then some aggMin
  else if pyLower aggfunc = "max" then some aggMax
  else if pyLower aggfunc = "median" then some aggMedian
  else if pyLower aggfunc = "first" then some pivotHead
  else if pyLower aggfunc = "last" then some pivotTail
  else none

/-- The reshaped table built by `pd.pivot_table(...).reset_index()`
(processor.py lines 242-249): one row per distinct index tuple (rows
with a missing index or pivot-column value dropped, axes sorted
ascending), one column per distinct pivot value; each cell aggregates
the value column over the matching input rows, empty combinations
receiving `fill_value` if given, else null. -/
def pivotTable (df : DataFrame) (index : List String) (columns values : String)
    (f : List Cell → Cell) (fill_value : Option Cell) : DataFrame :=
  let kept := df.rows.filter fun r =>
    ((keyOf df index r).all fun c => !(c == Cell.null))
      && !(cellAt r (colIdx df columns) == Cell.null)
  let ikeys := sortKeys (dedupFirst (kept.map (keyOf df index)))
  let cvals := sortKeys (dedupFirst (kept.map fun r => [cellAt r (colIdx df columns)]))
  let outRows := ikeys.map fun k =>
    k ++ cvals.map fun cv =>
      let grp := kept.filter fun r =>
        keyOf df index r == k && [cellAt r (colIdx df columns)] == cv
      if grp = [] then fill_value.getD Cell.null
      else f (grp.map fun r => cellAt r (colIdx df values))
  ⟨index ++ cvals.map (fun cv => strOfCell (cellAt cv 0)), outRows⟩

/-- `DataProcessor.pivot_data` (processor.py lines 196-256) for a string
`aggfunc`: the name is resolved to a function before `pd.pivot_table`
ever touches the data; an unsupported name raises (and the `except` at
line 254 re-raises), so no table is produced and no data row is
scanned.  With a known name, missing index/columns/values columns make
`pd.pivot_table` raise `KeyError`, likewise re-raised. -/
def pivot_data (df : DataFrame) (index : List String) (columns values : String)
    (aggfunc : String) (fill_value : Option Cell) : Except String DataFrame :=
  match resolvePivotAgg aggfunc with
  | none => Except.error ("Unsupported aggregation function: " ++ aggfunc)
  | some f =>
    if !(index.all fun c => df.cols.contains c)
        || !(df.cols.contains columns) || !(df.cols.contains values) then
      Except.error "Pivot error: column not found"
    else Except.ok (pivotTable df index columns values f fill_value)

/-- Remove the columns named in `bad` (and each row's cells at those
positions). -/
def removeCols (df : DataFrame) (bad : List String) : DataFrame :=
  let keep := (List.range df.cols.length).filter fun i => !(bad.contains (df.cols.getD i ""))
  ⟨keep.map fun i => df.cols.getD i "", df.rows.map fun r => keep.map fun i => cellAt r i⟩

/-- `DataProcessor.clean_data` (processor.py lines 292-364), applied in
source order: drop duplicate rows (keeping first occurrences, missing
values counting as equal, like `DataFrame.drop_duplicates`), drop rows
containing a missing value, drop the listed columns that exist, rename
the existing columns, fill missing values per column.  Each optional
step runs only when its argument is truthy, and the falsy defaults make
every step a no-op. -/
def clean_data (df : DataFrame) (drop_duplicates drop_na : Bool)
    (drop_columns : List String) (rename_columns : List (String × String))
    (fill_na : List (String × Cell)) : DataFrame :=
  let r1 := if drop_duplicates then { df with rows := dedupFirst df.rows } else df
  let r2 := if drop_na then
      { r1 with rows := r1.rows.filter fun r => !(r.contains Cell.null) } else r1
  let r3 := if drop_columns = [] then r2
    else
      let valid := drop_columns.filter fun c => r2.cols.contains c
      if valid = [] then r2 else removeCols r2 valid
  let r4 := if rename_columns = [] then r3
    else
      let valid := rename_columns.filter fun p => r3.cols.contains p.1
      if valid = [] then r3
      else { r3 with cols := r3.cols.map fun c => ((valid.lookup c).getD c) }
  if fill_na = [] then r4
  else
    let valid := fill_na.filter fun p => r4.cols.contains p.1
    if valid = [] then r4
    else { r4 with
      rows := r4.rows.map fun r =>
        (List.range r4.cols.length).map fun i =>
          if cellAt r i == Cell.null then
            match valid.lookup (r4.cols.getD i "") with
            | some c => c
            | none => Cell.null
          else cellAt r i }

/-- One entry of a dataset's transformation history
(`manager.py` lines 176-180): the dict appended by
`ResourceManager.add_transformation`. -/
structure TransformationRecord where
  ttype : String
  params : String
  applied_at : String
deriving Repr, DecidableEq

/-- A dataset record as stored in `ResourceManager.datasets`
(`register_dataset`, manager.py lines 142-149); the fields not touched
by the claims (`metadata`, `source_connection_id`) are elided. -/
structure DatasetRecord where
  id : String
  data : DataFrame
  transformations : List TransformationRecord
  created_at : String
deriving Repr, DecidableEq

/-- The `self.datasets` dict: an insertion-ordered map from dataset id
to record. -/
def Registry := List (String × DatasetRecord)

/-- Point update of one registry entry. -/
def updateRec : Registry → String → (DatasetRecord → DatasetRecord) → Registry
  | [], _, _ => []
  | e :: t, dataset_id, f =>
    (if e.1 = dataset_id then (e.1, f e.2) else e) :: updateRec t dataset_id f

/-- `ResourceManager.add_transformation` (manager.py lines 160-183):
returns `False` untouched when the dataset id is unknown, otherwise
appends a `{type, params, applied_at}` record to the dataset's
`transformations` list and returns `True`.  The wall-clock timestamp is
passed in as `now` to keep the model deterministic. -/
def add_transformation (reg : Registry) (dataset_id ttype params now : String) :
    Registry × Bool :=
  match reg.lookup dataset_id with
  | none => (reg, false)
  | some _ =>
    (updateRec reg dataset_id fun r =>
      { r with transformations := r.transformations ++ [⟨ttype, params, now⟩] }, true)

/-- `ResourceManager.update_dataset` (manager.py lines 185-201):
replaces the dataset's table, `False` when the id is unknown. -/
def update_dataset (reg : Registry) (dataset_id : String) (new_data : DataFrame) :
    Registry × Bool :=
  match reg.lookup dataset_id with
  | none => (reg, false)
  | some _ => (updateRec reg dataset_id fun r => { r with data := new_data }, true)

/-- Modelled from the spec: the orchestration `applyOperation(datasetId,
kind, params) -> (newTable, transformationRecord)` of spec section 4.6.
No code under `src/` combines a processor call with the registry
primitives (`server.py` never invokes `add_transformation` /
`update_dataset`), so the sequencing is taken from the spec's words:
"Appends the record only after the operation succeeds; on failure the
dataset is left unchanged and the error is surfaced to the caller (no
partial application)."  The operation itself is any fallible table
transformation; `now` is the timestamp the appended record carries. -/
def applyOperation (reg : Registry) (dataset_id : String)
    (op : DataFrame → Except String DataFrame) (ttype params now : String) :
    Registry × Except String DataFrame :=
  match reg.lookup dataset_id with
  | none => (reg, Except.error "Dataset not found")
  | some entry =>
    match op entry.data with
    | Except.error e => (reg, Except.error e)
    | Except.ok t =>
      let reg1 := (update_dataset reg dataset_id t).1
      let reg2 := (add_transformation reg1 dataset_id ttype params now).1
      (reg2, Except.ok t)

/-- A filter `value` of the exact shape `[lo, hi]` (what the `between`
branch demands). -/
def isPairList : PyVal → Bool
  | PyVal.list [_, _] => true
  | _ => false

theorem eqFilter_length_le (i : Nat) (v : PyVal) (rows : List (List Cell)) :
    (eqFilter i v rows).length ≤ rows.length := by
  cases v with
  | scalar c => exact List.length_filter_le _ _
  | list cs => exact Nat.le_refl _

theorem neFilter_length_le (i : Nat) (v : PyVal) (rows : List (List Cell)) :
    (neFilter i v rows).length ≤ rows.length := by
  cases v with
  | scalar c => exact List.length_filter_le _ _
  | list cs => exact Nat.le_refl _

theorem cmpFilter_length_le (test : Cell → Cell → Option Bool) (i : Nat) (v : PyVal)
    (rows : List (List Cell)) : (cmpFilter test i v rows).length ≤ rows.length := by
  cases v with
  | scalar c =>
    simp only [cmpFilter]
    split
    · exact List.length_filter_le _ _
    · exact Nat.le_refl _
  | list cs => exact Nat.le_refl _

theorem textFilter_length_le (m : String → String → Bool) (neg : Bool) (i : Nat)
    (v : PyVal) (rows : List (List Cell)) : (textFilter m neg i v rows).length ≤ rows.length :=
  List.length_filter_le _ _

theorem inFilter_length_le (i : Nat) (v : PyVal) (rows : List (List Cell)) :
    (inFilter i v rows).length ≤ rows.length := List.length_filter_le _ _

theorem notinFilter_length_le (i : Nat) (v : PyVal) (rows : List (List Cell)) :
    (notinFilter i v rows).length ≤ rows.length := List.length_filter_le _ _

theorem betweenFilter_length_le (i : Nat) (v : PyVal) (rows : List (List Cell)) :
    (betweenFilter i v rows).length ≤ rows.length := by
  match v with
  | PyVal.scalar _ => exact Nat.le_refl _
  | PyVal.list [] => exact Nat.le_refl _
  | PyVal.list [_] => exact Nat.le_refl _
  | PyVal.list (_ :: _ :: _ :: _) => exact Nat.le_refl _
  | PyVal.list [lo, hi] =>
    simp only [betweenFilter]
    split
    · exact List.length_filter_le _ _
    · exact Nat.le_refl _

theorem isnullFilter_length_le (i : Nat) (rows : List (List Cell)) :
    (isnullFilter i rows).length ≤ rows.length := List.length_filter_le _ _

theorem notnullFilter_length_le (i : Nat) (rows : List (List Cell)) :
    (notnullFilter i rows).length ≤ rows.length := List.length_filter_le _ _

theorem applyOp_length_le (i : Nat) (op : String) (v : PyVal) (rows : List (List Cell)) :
    (applyOp i op v rows).length ≤ rows.length := by
  unfold applyOp
  cases classifyOp op <;>
    first
      | exact eqFilter_length_le ..
      | exact neFilter_length_le ..
      | exact cmpFilter_length_le ..
      | exact textFilter_length_le ..
      | exact inFilter_length_le ..
      | exact notinFilter_length_le ..
      | exact betweenFilter_length_le ..
      | exact isnullFilter_length_le ..
      | exact notnullFilter_length_le ..
      | exact Nat.le_refl _

theorem applyCondition_length_le (cols : List String) (rows : List (List Cell))
    (fc : FilterCondition) : (applyCondition cols rows fc).length ≤ rows.length := by
  obtain ⟨ocol, oop, v⟩ := fc
  cases ocol with
  | none => exact Nat.le_refl _
  | some col =>
    cases h : cols.findIdx? (fun c => c == col) with
    | none => simp [applyCondition, h]
    | some i =>
      cases oop with
      | none => simp [applyCondition, h]
      | some op =>
        simp only [applyCondition, h]
        exact applyOp_length_le ..

theorem foldl_applyCondition_length_le (cols : List String) (fs : List FilterCondition) :
    ∀ rows : List (List Cell), (fs.foldl (applyCondition cols) rows).length ≤ rows.length := by
  induction fs with
  | nil => intro rows; exact Nat.le_refl _
  | cons fc rest ih =>
    intro rows
    simpa using Nat.le_trans (ih (applyCondition cols rows fc)) (applyCondition_length_le ..)

/-- C3: filtering never grows a table — for every table and condition
list the output has at most as many rows as the input — and filtering
with an empty condition list returns the table unchanged
(processor.py lines 34-35 return the frame immediately, and every
operator branch only ever selects a subset of the current rows). -/
theorem filter_shrinks_and_empty_is_identity (df : DataFrame) (fs : List FilterCondition) :
    (filter_data df fs).rows.length ≤ df.rows.length ∧ filter_data df [] = df := by
  refine ⟨?_, rfl⟩
  by_cases h : fs = []
  · subst h; exact Nat.le_refl _
  · simpa [filter_data, h] using foldl_applyCondition_length_le df.cols fs df.rows

theorem betweenFilter_malformed_skip (i : Nat) (v : PyVal) (rows : List (List Cell))
    (hv : isPairList v = false) : betweenFilter i v rows = rows := by
  match v with
  | PyVal.scalar _ => rfl
  | PyVal.list [] => rfl
  | PyVal.list [_] => rfl
  | PyVal.list (_ :: _ :: _ :: _) => rfl
  | PyVal.list [lo, hi] => simp [isPairList] at hv

theorem applyOp_between (i : Nat) (v : PyVal) (rows : List (List Cell)) :
    applyOp i "between" v rows = betweenFilter i v rows := rfl

theorem applyCondition_between_malformed (cols : List String) (rows : List (List Cell))
    (fc : FilterCondition) (hop : fc.operator = some "between")
    (hv : isPairList fc.value = false) : applyCondition cols rows fc = rows := by
  obtain ⟨ocol, oop, v⟩ := fc
  simp only [FilterCondition.operator] at hop
  simp only [FilterCondition.value] at hv
  subst hop
  cases ocol with
  | none => rfl
  | some col =>
    cases h : cols.findIdx? (fun c => c == col) with
    | none => simp [applyCondition, h]
    | some i =>
      simp only [applyCondition, h]
      rw [applyOp_between]
      exact betweenFilter_malformed_skip i v rows hv

/-- C1 (counterexample): a filter batch containing a `between` condition
whose value is not a 2-element list does NOT abort — the internal
`ValueError` is caught by the per-condition `except` (processor.py
line 89) — and the table filtered by the other conditions is returned:
here the preceding `=` condition has already removed a row, so a
partially filtered table comes back. -/
theorem filter_between_malformed_partial_result :
    filter_data
        ⟨["a", "b"], [[Cell.num 1, Cell.text "x"], [Cell.num 2, Cell.text "y"],
          [Cell.num 3, Cell.text "x"]]⟩
        [⟨some "b", some "=", PyVal.scalar (Cell.text "x")⟩,
          ⟨some "a", some "between", PyVal.scalar (Cell.num 5)⟩]
      = ⟨["a", "b"], [[Cell.num 1, Cell.text "x"], [Cell.num 3, Cell.text "x"]]⟩ ∧
    filter_data
        ⟨["a", "b"], [[Cell.num 1, Cell.text "x"], [Cell.num 2, Cell.text "y"],
          [Cell.num 3, Cell.text "x"]]⟩
        [⟨some "b", some "=", PyVal.scalar (Cell.text "x")⟩,
          ⟨some "a", some "between", PyVal.scalar (Cell.num 5)⟩]
      ≠ ⟨["a", "b"], [[Cell.num 1, Cell.text "x"], [Cell.num 2, Cell.text "y"],
          [Cell.num 3, Cell.text "x"]]⟩ := by
  constructor
  · decide
  · decide

/-- C1 (amended): a `between` condition whose value is not a 2-element
list is skipped — the raised `ValueError` is caught and only logged —
so filtering with it present equals filtering without it; the other
conditions still apply and their (possibly partial) result is returned. -/
theorem filter_between_malformed_condition_skipped (df : DataFrame)
    (pre post : List FilterCondition) (fc : FilterCondition)
    (hop : fc.operator = some "between") (hv : isPairList fc.value = false) :
    filter_data df (pre ++ fc :: post) = filter_data df (pre ++ post) := by
  unfold filter_data
  rw [if_neg (by simp)]
  by_cases h2 : pre ++ post = []
  · obtain ⟨hpre, hpost⟩ := List.append_eq_nil.mp h2
    subst hpre; subst hpost
    rw [if_pos h2]
    have hfold : ([] ++ [fc]).foldl (applyCondition df.cols) df.rows = df.rows := by
      simp only [List.nil_append, List.foldl_cons, List.foldl_nil]
      exact applyCondition_between_malformed df.cols df.rows fc hop hv
    rw [hfold]
  · rw [if_neg h2]
    have : (pre ++ fc :: post).foldl (applyCondition df.cols) df.rows
        = (pre ++ post).foldl (applyCondition df.cols) df.rows := by
      rw [List.foldl_append, List.foldl_append, List.foldl_cons,
        applyCondition_between_malformed df.cols _ fc hop hv]
    rw [this]

/-- Witness for the C1 amended theorem at a concrete malformed
condition. -/
theorem filter_between_malformed_condition_skipped_witness :
    (⟨some "a", some "between", PyVal.scalar (Cell.num 5)⟩ : FilterCondition).operator
        = some "between" ∧
    isPairList (PyVal.scalar (Cell.num 5)) = false ∧
    filter_data ⟨["a"], [[Cell.num 1]]⟩
        ([] ++ (⟨some "a", some "between", PyVal.scalar (Cell.num 5)⟩ : FilterCondition) :: [])
      = filter_data ⟨["a"], [[Cell.num 1]]⟩ ([] ++ []) :=
  ⟨rfl, rfl,
    filter_between_malformed_condition_skipped ⟨["a"], [[Cell.num 1]]⟩ [] []
      ⟨some "a", some "between", PyVal.scalar (Cell.num 5)⟩ rfl rfl⟩

theorem mem_dedupFirstAux {x : List Cell} :
    ∀ (seen l : List (List Cell)), x ∈ dedupFirstAux seen l → x ∈ l := by
  intro seen l
  induction l generalizing seen with
  | nil => simp [dedupFirstAux]
  | cons r rest ih =>
    simp only [dedupFirstAux]
    split
    · intro h; exact List.mem_cons_of_mem _ (ih _ h)
    · intro h
      rcases List.mem_cons.mp h with h1 | h1
      · exact h1 ▸ List.mem_cons_self ..
      · exact List.mem_cons_of_mem _ (ih _ h1)

theorem mem_dedupFirst {x : List Cell} (l : List (List Cell)) :
    x ∈ dedupFirst l → x ∈ l := mem_dedupFirstAux [] l

theorem mem_insertKey {x k : List Cell} :
    ∀ s : List (List Cell), x ∈ insertKey k s → x = k ∨ x ∈ s := by
  intro s
  induction s with
  | nil => simp [insertKey]
  | cons h t ih =>
    simp only [insertKey]
    split
    · intro hm
      exact List.mem_cons.mp hm
    · intro hm
      rcases List.mem_cons.mp hm with h1 | h1
      · exact Or.inr (h1 ▸ List.mem_cons_self ..)
      · rcases ih h1 with h2 | h2
        · exact Or.inl h2
        · exact Or.inr (List.mem_cons_of_mem _ h2)

theorem mem_sortKeys {x : List Cell} :
    ∀ l : List (List Cell), x ∈ sortKeys l → x ∈ l := by
  intro l
  induction l with
  | nil => simp [sortKeys]
  | cons k rest ih =>
    simp only [sortKeys]
    intro h
    rcases mem_insertKey _ h with h1 | h1
    · exact h1 ▸ List.mem_cons_self ..
    · exact List.mem_cons_of_mem _ (ih h1)

/-- C2 (counterexample): grouping `[{a:1,b:"x"},{a:2,b:"y"},{a:3,b:"x"}]`
by `b` with `{a: "sum"}` yields columns `b, a` — with a `dict[str,str]`
aggregation pandas keeps the original column names — not `b, a_sum` as
the claim states. -/
theorem aggregate_scenario_keeps_column_name :
    aggregate_data
        ⟨["a", "b"], [[Cell.num 1, Cell.text "x"], [Cell.num 2, Cell.text "y"],
          [Cell.num 3, Cell.text "x"]]⟩ ["b"] [("a", "sum")]
      = Except.ok ⟨["b", "a"], [[Cell.text "x", Cell.num 4], [Cell.text "y", Cell.num 2]]⟩ ∧
    aggregate_data
        ⟨["a", "b"], [[Cell.num 1, Cell.text "x"], [Cell.num 2, Cell.text "y"],
          [Cell.num 3, Cell.text "x"]]⟩ ["b"] [("a", "sum")]
      ≠ Except.ok ⟨["b", "a_sum"], [[Cell.text "x", Cell.num 4], [Cell.text "y", Cell.num 2]]⟩ := by
  constructor
  · decide
  · decide

/-- C2 (amended): for a valid, non-empty aggregation request the output
columns are the group-by columns followed by one column per aggregation
entry bearing the aggregation column's ORIGINAL name (no `_<function>`
suffix), and the grouped result is returned; on the scenario table this
gives `[{b:"x", a:4}, {b:"y", a:2}]`. -/
theorem aggregate_output_columns (df : DataFrame) (group_by : List String)
    (aggregations : List (String × String))
    (hgb : group_by ≠ []) (hag : aggregations ≠ [])
    (hc1 : (group_by.all fun c => df.cols.contains c) = true)
    (hc2 : (aggregations.all fun p => df.cols.contains p.1) = true)
    (hc3 : (aggregations.all fun p => (resolveGroupAgg p.2).isSome) = true) :
    aggregate_data df group_by aggregations = Except.ok (groupAgg df group_by aggregations) ∧
    (groupAgg df group_by aggregations).cols = group_by ++ aggregations.map Prod.fst := by
  refine ⟨?_, rfl⟩
  unfold aggregate_data
  rw [if_neg (by simp [hgb, hag])]
  simp only [List.all_eq_true] at hc1 hc2 hc3
  have h1 : group_by.find? (fun c => !(df.cols.contains c)) = none :=
    List.find?_eq_none.mpr (by intro x hx; simpa using hc1 x hx)
  have h2 : aggregations.find? (fun p => !(df.cols.contains p.1)) = none :=
    List.find?_eq_none.mpr (by intro x hx; simpa using hc2 x hx)
  have h3 : aggregations.find? (fun p => (resolveGroupAgg p.2).isNone) = none :=
    List.find?_eq_none.mpr (by
      intro x hx
      have h := hc3 x hx
      cases hh : resolveGroupAgg x.2 with
      | none => rw [hh] at h; simp at h
      | some f => simp [hh])
  rw [h1, h2, h3]

/-- Witness for the C2 amended theorem on the spec's own scenario
table. -/
theorem aggregate_output_columns_witness :
    (["b"] : List String) ≠ [] ∧ ([("a", "sum")] : List (String × String)) ≠ [] ∧
    aggregate_data
        ⟨["a", "b"], [[Cell.num 1, Cell.text "x"], [Cell.num 2, Cell.text "y"],
          [Cell.num 3, Cell.text "x"]]⟩ ["b"] [("a", "sum")]
      = Except.ok (groupAgg
          ⟨["a", "b"], [[Cell.num 1, Cell.text "x"], [Cell.num 2, Cell.text "y"],
            [Cell.num 3, Cell.text "x"]]⟩ ["b"] [("a", "sum")]) ∧
    (groupAgg
        ⟨["a", "b"], [[Cell.num 1, Cell.text "x"], [Cell.num 2, Cell.text "y"],
          [Cell.num 3, Cell.text "x"]]⟩ ["b"] [("a", "sum")]).cols
      = ["b"] ++ [("a", "sum")].map Prod.fst :=
  ⟨by decide, by decide,
    aggregate_output_columns
      ⟨["a", "b"], [[Cell.num 1, Cell.text "x"], [Cell.num 2, Cell.text "y"],
        [Cell.num 3, Cell.text "x"]]⟩ ["b"] [("a", "sum")]
      (by decide) (by decide) (by decide) (by decide) (by decide)⟩

/-- C4 (counterexample): a table whose only row has a null group-by
value aggregates to an EMPTY table — `groupby` defaults to
`dropna=True` — rather than to a one-row table with a null group as the
claim states. -/
theorem aggregate_null_key_row_dropped :
    aggregate_data ⟨["a", "b"], [[Cell.num 1, Cell.null]]⟩ ["b"] [("a", "sum")]
      = Except.ok ⟨["b", "a"], []⟩ := by decide

/-- C4 (amended): rows whose group-by tuple contains a missing value are
dropped before grouping, so every row of a successful aggregation output
carries only non-null values in its group-key cells (the first
`group_by.length` columns). -/
theorem aggregate_output_keys_non_null (df : DataFrame) (group_by : List String)
    (aggregations : List (String × String)) (out : DataFrame) (r : List Cell)
    (hag : aggregations ≠ [])
    (hout : aggregate_data df group_by aggregations = Except.ok out)
    (hr : r ∈ out.rows) :
    ((r.take group_by.length).all fun c => !(c == Cell.null)) = true := by
  by_cases hgb : group_by = []
  · subst hgb
    simp [List.take_zero]
  · unfold aggregate_data at hout
    rw [if_neg (by simp [hgb, hag])] at hout
    cases h1 : group_by.find? (fun c => !(df.cols.contains c)) with
    | some c => rw [h1] at hout; simp at hout
    | none =>
      rw [h1] at hout
      cases h2 : aggregations.find? (fun p => !(df.cols.contains p.1)) with
      | some p => rw [h2] at hout; simp at hout
      | none =>
        rw [h2] at hout
        cases h3 : aggregations.find? (fun p => (resolveGroupAgg p.2).isNone) with
        | some p => rw [h3] at hout; simp at hout
        | none =>
          rw [h3] at hout
          simp only [Except.ok.injEq] at hout
          subst hout
          simp only [groupAgg, List.mem_map] at hr
          obtain ⟨k, hk, hkr⟩ := hr
          have hk2 : k ∈ (df.rows.filter fun row =>
              (keyOf df group_by row).all fun c => !(c == Cell.null)).map
                (keyOf df group_by) :=
            mem_dedupFirst _ (mem_sortKeys _ hk)
          simp only [List.mem_map, List.mem_filter] at hk2
          obtain ⟨row, ⟨_, hrowall⟩, hkey⟩ := hk2
          have hklen : k.length = group_by.length := by
            rw [← hkey]; simp [keyOf]
          rw [← hkr, ← hklen, List.take_left]
          rw [← hkey]
          exact hrowall

/-- Witness for the C4 amended theorem: a table with one null-keyed and
one properly keyed row; the single output row has a non-null key. -/
theorem aggregate_output_keys_non_null_witness :
    ([("a", "sum")] : List (String × String)) ≠ [] ∧
    aggregate_data ⟨["a", "b"], [[Cell.num 1, Cell.null], [Cell.num 2, Cell.text "x"]]⟩
        ["b"] [("a", "sum")]
      = Except.ok ⟨["b", "a"], [[Cell.text "x", Cell.num 2]]⟩ ∧
    [Cell.text "x", Cell.num 2] ∈
      (⟨["b", "a"], [[Cell.text "x", Cell.num 2]]⟩ : DataFrame).rows ∧
    ((([Cell.text "x", Cell.num 2]).take (["b"] : List String).length).all
        fun c => !(c == Cell.null)) = true :=
  ⟨by decide, by decide, by simp,
    aggregate_output_keys_non_null
      ⟨["a", "b"], [[Cell.num 1, Cell.null], [Cell.num 2, Cell.text "x"]]⟩
      ["b"] [("a", "sum")] ⟨["b", "a"], [[Cell.text "x", Cell.num 2]]⟩
      [Cell.text "x", Cell.num 2] (by decide) (by decide) (by simp)⟩

/-- C6 (counterexample): with an empty aggregation mapping the operation
returns the table unchanged WITHOUT validating columns — here the
group-by column `z` does not exist, yet no error is raised — so the
claim does not hold for every aggregation request with a missing
column. -/
theorem aggregate_empty_mapping_skips_validation :
    aggregate_data ⟨["a"], []⟩ ["z"] [] = Except.ok ⟨["a"], []⟩ := by decide

/-- C6 (amended): provided the group-by list and the aggregation mapping
are both non-empty, a missing group-by or aggregation column makes the
operation fail with an error and no table is returned (strict, unlike
the per-condition leniency of filtering); with an empty group-by list or
empty mapping the operation instead returns the input unchanged,
unvalidated. -/
theorem aggregate_missing_column_errors (df : DataFrame) (group_by : List String)
    (aggregations : List (String × String))
    (hgb : group_by ≠ []) (hag : aggregations ≠ [])
    (hmiss : (∃ c ∈ group_by, df.cols.contains c = false) ∨
      (∃ p ∈ aggregations, df.cols.contains p.1 = false)) :
    ∃ msg, aggregate_data df group_by aggregations = Except.error msg := by
  unfold aggregate_data
  rw [if_neg (by simp [hgb, hag])]
  cases h1 : group_by.find? (fun c => !(df.cols.contains c)) with
  | some c => exact ⟨_, rfl⟩
  | none =>
    have hall1 : ∀ c ∈ group_by, df.cols.contains c = true := by
      intro c hc
      have := List.find?_eq_none.mp h1 c hc
      simpa using this
    rcases hmiss with ⟨c, hc, hcf⟩ | ⟨p, hp, hpf⟩
    · rw [hall1 c hc] at hcf; cases hcf
    · cases h2 : aggregations.find? (fun p => !(df.cols.contains p.1)) with
      | some q => exact ⟨_, rfl⟩
      | none =>
        have := List.find?_eq_none.mp h2 p hp
        simp only [Bool.not_eq_true'] at this
        exact absurd hpf this

/-- Witness for the C6 amended theorem: a non-empty request naming the
absent column `z` errors out. -/
theorem aggregate_missing_column_errors_witness :
    (["z"] : List String) ≠ [] ∧ ([("a", "sum")] : List (String × String)) ≠ [] ∧
    ((∃ c ∈ (["z"] : List String), (["a"] : List String).contains c = false) ∨
      (∃ p ∈ ([("a", "sum")] : List (String × String)),
        (["a"] : List String).contains p.1 = false)) ∧
    ∃ msg, aggregate_data ⟨["a"], [[Cell.num 1]]⟩ ["z"] [("a", "sum")] = Except.error msg :=
  ⟨by decide, by decide, by decide,
    aggregate_missing_column_errors ⟨["a"], [[Cell.num 1]]⟩ ["z"] [("a", "sum")]
      (by decide) (by decide) (by decide)⟩

/-- C5 (counterexample): two single-row tables whose only key cells are
both null inner-join into ONE row — `pd.merge` matches missing key
values to each other — whereas the claim says no joined row pair can
arise from null keys on both sides. -/
theorem join_null_keys_match :
    join_data ⟨["k", "v"], [[Cell.null, Cell.num 1]]⟩
        ⟨["k", "w"], [[Cell.null, Cell.num 2]]⟩ ["k"] ["k"] "inner" ("_x", "_y")
      = Except.ok ⟨["k", "v", "w"], [[Cell.null, Cell.num 1, Cell.num 2]]⟩ := by decide

/-- C5 (amended): in an inner join two rows are key-matched exactly when
their key-cell tuples are equal as tagged values, with null EQUAL to
null: any left row and right row with identical key tuples — all-null
tuples included — contribute a combined row to the output. -/
theorem join_inner_matching_pair_joined (ldf rdf : DataFrame)
    (left_on right_on : List String) (suffix : String × String) (lr rr : List Cell)
    (hlv : (left_on.all fun c => ldf.cols.contains c) = true)
    (hrv : (right_on.all fun c => rdf.cols.contains c) = true)
    (hlen : left_on.length = right_on.length)
    (hl : lr ∈ ldf.rows) (hr : rr ∈ rdf.rows)
    (hkey : keyOf ldf left_on lr = keyOf rdf right_on rr) :
    ∃ out, join_data ldf rdf left_on right_on "inner" suffix = Except.ok out ∧
      mergeRow rdf left_on right_on lr rr ∈ out.rows := by
  refine ⟨⟨mergeOutCols ldf rdf left_on right_on suffix,
    innerRows ldf rdf left_on right_on⟩, ?_, ?_⟩
  · unfold join_data
    rw [if_neg (by decide), if_neg (by simpa using hlv), if_neg (by simpa using hrv),
      if_neg (by simp [hlen])]
    rfl
  · show mergeRow rdf left_on right_on lr rr ∈ innerRows ldf rdf left_on right_on
    unfold innerRows
    refine List.mem_flatMap.mpr ⟨lr, hl, List.mem_map.mpr ⟨rr, List.mem_filter.mpr ⟨hr, ?_⟩, rfl⟩⟩
    simp [mergeMatch, hkey]

/-- Witness for the C5 amended theorem at all-null key cells on both
sides: the null-keyed pair is joined. -/
theorem join_inner_matching_pair_joined_witness :
    [Cell.null, Cell.num 1] ∈ (⟨["k", "v"], [[Cell.null, Cell.num 1]]⟩ : DataFrame).rows ∧
    [Cell.null, Cell.num 2] ∈ (⟨["k", "w"], [[Cell.null, Cell.num 2]]⟩ : DataFrame).rows ∧
    keyOf ⟨["k", "v"], [[Cell.null, Cell.num 1]]⟩ ["k"] [Cell.null, Cell.num 1]
      = keyOf ⟨["k", "w"], [[Cell.null, Cell.num 2]]⟩ ["k"] [Cell.null, Cell.num 2] ∧
    ∃ out, join_data ⟨["k", "v"], [[Cell.null, Cell.num 1]]⟩
        ⟨["k", "w"], [[Cell.null, Cell.num 2]]⟩ ["k"] ["k"] "inner" ("_x", "_y")
        = Except.ok out ∧
      mergeRow ⟨["k", "w"], [[Cell.null, Cell.num 2]]⟩ ["k"] ["k"]
        [Cell.null, Cell.num 1] [Cell.null, Cell.num 2] ∈ out.rows :=
  ⟨by simp, by simp, by decide,
    join_inner_matching_pair_joined ⟨["k", "v"], [[Cell.null, Cell.num 1]]⟩
      ⟨["k", "w"], [[Cell.null, Cell.num 2]]⟩ ["k"] ["k"] ("_x", "_y")
      [Cell.null, Cell.num 1] [Cell.null, Cell.num 2]
      (by decide) (by decide) (by decide) (by simp) (by simp) (by decide)⟩

/-- C7: a pivot request whose aggregation-function name is not one of
the supported names (`sum`, `mean`/`avg`, `count`, `min`, `max`,
`median`, `first`, `last`, case-insensitively) fails with the
configuration error raised at processor.py line 236 — for EVERY table,
so before any data row is scanned — and no pivot table is produced. -/
theorem pivot_unsupported_aggfunc_fails (df : DataFrame) (index : List String)
    (columns values : String) (aggfunc : String) (fill_value : Option Cell)
    (h : pyLower aggfunc ∉
      (["sum", "mean", "avg", "count", "min", "max", "median", "first", "last"] :
        List String)) :
    pivot_data df index columns values aggfunc fill_value
      = Except.error ("Unsupported aggregation function: " ++ aggfunc) := by
  have hres : resolvePivotAgg aggfunc = none := by
    simp only [List.mem_cons, List.not_mem_nil, or_false, not_or] at h
    obtain ⟨h1, h2, h3, h4, h5, h6, h7, h8, h9⟩ := h
    simp [resolvePivotAgg, h1, h2, h3, h4, h5, h6, h7, h8, h9]
  unfold pivot_data
  rw [hres]

/-- Witness for C7: the name `product` is not supported, so pivoting any
concrete table with it yields the configuration error. -/
theorem pivot_unsupported_aggfunc_fails_witness :
    pyLower "product" ∉
      (["sum", "mean", "avg", "count", "min", "max", "median", "first", "last"] :
        List String) ∧
    pivot_data ⟨["a", "b"], [[Cell.num 1, Cell.text "x"]]⟩ ["a"] "b" "a" "product" none
      = Except.error "Unsupported aggregation function: product" :=
  ⟨by decide,
    pivot_unsupported_aggfunc_fails ⟨["a", "b"], [[Cell.num 1, Cell.text "x"]]⟩
      ["a"] "b" "a" "product" none (by decide)⟩

/-- C8 (failing input): a `contains` filter with search value `"a"` on a
column whose only cell is null KEEPS the row — `astype(str)` turns the
missing value into the text `"nan"`, which contains `"a"`, before
`na=False` could ever apply — contradicting the claim (and the intent of
the `na=False` argument) that null cells are never selected. -/
theorem filter_contains_selects_null_cell :
    filter_data ⟨["c"], [[Cell.null]]⟩
        [⟨some "c", some "contains", PyVal.scalar (Cell.text "a")⟩]
      = ⟨["c"], [[Cell.null]]⟩ ∧
    strOfCell Cell.null = "nan" ∧ strHasSub "nan" "a" = true := by
  refine ⟨by decide, rfl, by decide⟩

/-- C10: `clean_data` with every option at its default (no duplicate or
NA dropping, nothing to drop, rename or fill) is the identity on tables
— each guarded step is skipped and the copied frame is returned. -/
theorem clean_defaults_identity (df : DataFrame) :
    clean_data df false false [] [] [] = df := rfl

theorem lookup_updateRec (id : String) (f : DatasetRecord → DatasetRecord) :
    ∀ reg : Registry, (updateRec reg id f).lookup id = (reg.lookup id).map f := by
  intro reg
  induction reg with
  | nil => rfl
  | cons e t ih =>
    obtain ⟨k, r⟩ := e
    by_cases hk : k = id
    · subst hk
      show List.lookup k ((if k = k then (k, f r) else (k, r)) :: updateRec t k f)
        = Option.map f (List.lookup k ((k, r) :: t))
      rw [if_pos rfl]
      simp [List.lookup]
    · show List.lookup id ((if k = id then (k, f r) else (k, r)) :: updateRec t id f)
        = Option.map f (List.lookup id ((k, r) :: t))
      rw [if_neg hk]
      have hbk : (id == k) = false := by simp [Ne.symm hk]
      simp [List.lookup, hbk, ih]

/-- C9: the lineage discipline of the (spec-modelled) operation
orchestration over the registry primitives of `manager.py`: when the
operation fails on the dataset's current table, the registry — table and
transformation history alike — is returned unchanged and the error is
surfaced; when it succeeds, the stored table becomes the result and
exactly one transformation record is appended after the existing
history. -/
theorem lineage_appended_only_after_success (reg : Registry)
    (dataset_id ttype params now : String) (op : DataFrame → Except String DataFrame)
    (entry : DatasetRecord) (hlook : reg.lookup dataset_id = some entry) :
    (∀ e, op entry.data = Except.error e →
      applyOperation reg dataset_id op ttype params now = (reg, Except.error e)) ∧
    (∀ t, op entry.data = Except.ok t →
      ∃ entry2, (applyOperation reg dataset_id op ttype params now).1.lookup dataset_id
          = some entry2 ∧
        entry2.data = t ∧
        entry2.transformations = entry.transformations ++ [⟨ttype, params, now⟩] ∧
        (applyOperation reg dataset_id op ttype params now).2 = Except.ok t) := by
  constructor
  · intro e he
    unfold applyOperation
    simp only [hlook, he]
  · intro t ht
    unfold applyOperation
    simp only [hlook, ht]
    have h1 : update_dataset reg dataset_id t
        = (updateRec reg dataset_id fun r => { r with data := t }, true) := by
      unfold update_dataset; rw [hlook]
    have h2 : (updateRec reg dataset_id fun r => { r with data := t }).lookup dataset_id
        = some { entry with data := t } := by
      rw [lookup_updateRec, hlook]; rfl
    have h3 : add_transformation (updateRec reg dataset_id fun r => { r with data := t })
        dataset_id ttype params now
        = (updateRec (updateRec reg dataset_id fun r => { r with data := t }) dataset_id
            (fun r =>
              { r with transformations := r.transformations ++ [⟨ttype, params, now⟩] }),
          true) := by
      unfold add_transformation; rw [h2]
    simp only [h1, h3]
    refine ⟨⟨entry.id, t, entry.transformations ++ [⟨ttype, params, now⟩],
      entry.created_at⟩, ?_, rfl, rfl, trivial⟩
    rw [lookup_updateRec, h2]
    rfl

/-- Witness for C9: a one-dataset registry and a genuinely failing
operation (aggregating on the absent column `z`) leave the registry
untouched. -/
theorem lineage_appended_only_after_success_witness :
    ([("d1", ⟨"d1", ⟨["a"], [[Cell.num 1]]⟩, [], "t0"⟩)] : Registry).lookup "d1"
      = some ⟨"d1", ⟨["a"], [[Cell.num 1]]⟩, [], "t0"⟩ ∧
    (∀ e, (fun d => aggregate_data d ["z"] [("a", "sum")])
        (⟨"d1", ⟨["a"], [[Cell.num 1]]⟩, [], "t0"⟩ : DatasetRecord).data = Except.error e →
      applyOperation [("d1", ⟨"d1", ⟨["a"], [[Cell.num 1]]⟩, [], "t0"⟩)] "d1"
          (fun d => aggregate_data d ["z"] [("a", "sum")]) "aggregate" "p" "t1"
        = ([("d1", ⟨"d1", ⟨["a"], [[Cell.num 1]]⟩, [], "t0"⟩)], Except.error e)) :=
  ⟨rfl,
    (lineage_appended_only_after_success
      [("d1", ⟨"d1", ⟨["a"], [[Cell.num 1]]⟩, [], "t0"⟩)] "d1" "aggregate" "p" "t1"
      (fun d => aggregate_data d ["z"] [("a", "sum")])
      ⟨"d1", ⟨["a"], [[Cell.num 1]]⟩, [], "t0"⟩ rfl).1⟩
